import Mathlib

/-!
Verification of the CustomerSupportAgent repository: a shallow embedding of
the in-memory Ledger (`database.py`), the business operations
(`functions.py`), the Attempt Tracker (`state.py`) and the relevant
fragments of the dialogue controller (`agent.py`), together with theorems
settling the behavioural claims about them.

Conventions of the embedding:
- Python dicts keyed by strings become association lists
  (`List (String × α)`) with lookup/insert/update helpers whose semantics
  mirror dict get / assignment / in-place field mutation.
- Monetary amounts (Python floats) become `ℚ`; the code only stores and
  compares them, so exact rationals are a faithful model of the
  comparisons performed.
- `datetime.now()` is modelled by explicit string parameters (`today` for
  the `%Y-%m-%d` rendering, `todayCompact` for `%Y%m%d`).
- A Python result dict with a varying key set becomes the `FnResult`
  structure whose fields are `Option`-valued; a field equal to `none`
  models the key being absent from the dict.
-/

namespace CSA

/-- Lookup in an association list; mirrors Python `dict.get(k)`. -/
def alist_get (k : String) : List (String × α) → Option α
  | [] => none
  | (k', v) :: rest => if k' = k then some v else alist_get k rest

/-- Insert/overwrite in an association list; mirrors Python `d[k] = v`. -/
def alist_set (k : String) (v : α) : List (String × α) → List (String × α)
  | [] => [(k, v)]
  | (k', v') :: rest =>
      if k' = k then (k, v) :: rest else (k', v') :: alist_set k v rest

/-- Update the value at a key when present; mirrors in-place mutation of
`d[k]` guarded by `if k in d` (a no-op when the key is absent). -/
def alist_update (k : String) (f : α → α) : List (String × α) → List (String × α)
  | [] => []
  | (k', v) :: rest =>
      if k' = k then (k', f v) :: alist_update k f rest
      else (k', v) :: alist_update k f rest

/-- Remove a key; mirrors Python `del d[k]` (dicts hold each key once). -/
def alist_erase (k : String) (l : List (String × α)) : List (String × α) :=
  l.filter (fun p => p.1 ≠ k)

/-- An order record (`database.py` sample data shape). The `status` field is
a plain string, as in the Python dicts; `total` is the float order total
modelled as a rational. -/
structure Order where
  order_id : String
  status : String
  items : List String
  order_date : String
  shipped_date : Option String
  expected_delivery : String
  tracking_number : Option String
  total : ℚ
  customer_id : String
  delivered_date : Option String
deriving DecidableEq, Repr

/-- A return record, as built by `InMemoryDatabase.create_return` and
mutated by `update_return_status`. -/
structure ReturnRec where
  return_id : String
  order_id : String
  status : String
  reason : String
  initiated_date : String
  received_date : Option String
  inspection_result : Option String
  refund_id : Option String
deriving DecidableEq, Repr

/-- A refund record, as built by `InMemoryDatabase.create_refund` and
mutated by `update_refund_status`. -/
structure RefundRec where
  refund_id : String
  order_id : String
  amount : ℚ
  reason : String
  status : String
  initiated_date : String
  completed_date : Option String
  return_id : Option String
deriving DecidableEq, Repr

/-- The Ledger: the three keyed stores of `InMemoryDatabase`. -/
structure Db where
  orders : List (String × Order)
  returns : List (String × ReturnRec)
  refunds : List (String × RefundRec)
deriving DecidableEq, Repr

/-- `InMemoryDatabase.update_order_status`: sets the status when the order
exists, no-op otherwise (the boolean result is unused by the callers we
model). -/
def Db.update_order_status (db : Db) (order_id new_status : String) : Db :=
  { db with orders := alist_update order_id (fun o => { o with status := new_status }) db.orders }

/-- `InMemoryDatabase.create_return`: builds the `RET-<order>` record with
status `pending_receipt`, overwriting any record under the same key.
`today` stands for `datetime.now().strftime("%Y-%m-%d")`. -/
def Db.create_return (db : Db) (order_id reason today : String) : String × Db :=
  let return_id := "RET-" ++ order_id
  let r0 : ReturnRec :=
    { return_id := return_id
      order_id := order_id
      status := "pending_receipt"
      reason := reason
      initiated_date := today
      received_date := none
      inspection_result := none
      refund_id := none }
  (return_id, { db with returns := alist_set return_id r0 db.returns })

/-- `InMemoryDatabase.update_return_status` with its keyword arguments:
each `some` argument models the corresponding kwarg being passed. -/
def Db.update_return_status (db : Db) (return_id new_status : String)
    (received_date inspection_result refund_id : Option String) : Db :=
  { db with returns := alist_update return_id (fun r =>
      { r with
        status := new_status
        received_date := match received_date with
          | some v => some v
          | none => r.received_date
        inspection_result := match inspection_result with
          | some v => some v
          | none => r.inspection_result
        refund_id := match refund_id with
          | some v => some v
          | none => r.refund_id }) db.returns }

/-- `InMemoryDatabase.create_refund`: builds the `REF-<order>` record;
status is `pending_return` when a return id is supplied, else
`processing`. -/
def Db.create_refund (db : Db) (order_id : String) (amount : ℚ)
    (reason : String) (return_id : Option String) (today : String) : String × Db :=
  let refund_id := "REF-" ++ order_id
  let r0 : RefundRec :=
    { refund_id := refund_id
      order_id := order_id
      amount := amount
      reason := reason
      status := match return_id with
        | some _ => "pending_return"
        | none => "processing"
      initiated_date := today
      completed_date := none
      return_id := return_id }
  (refund_id, { db with refunds := alist_set refund_id r0 db.refunds })

/-- `InMemoryDatabase.update_refund_status` with the one keyword argument
the code ever passes (`completed_date`). -/
def Db.update_refund_status (db : Db) (refund_id new_status : String)
    (completed_date : Option String) : Db :=
  { db with refunds := alist_update refund_id (fun r =>
      { r with
        status := new_status
        completed_date := match completed_date with
          | some v => some v
          | none => r.completed_date }) db.refunds }

/-- One entry of the mocked tracking history (`check_tracking`). -/
structure TrackEvent where
  date : String
  location : String
  event : String
deriving DecidableEq, Repr

/-- A Python result dict from `functions.py`, with `Option`-valued fields:
`none` models the key being absent. `success := none` in particular models
a dict carrying no `success` key (as `check_tracking` returns), which
matters for the controller's `function_response.get("success", True)`. -/
structure FnResult where
  success : Option Bool := none
  error : Option String := none
  action_required : Option String := none
  order_id : Option String := none
  amount : Option ℚ := none
  refund_id : Option String := none
  return_id : Option String := none
  status : Option String := none
  message : Option String := none
  estimated_days : Option ℕ := none
  return_shipping_label : Option String := none
  return_address : Option String := none
  instructions : Option String := none
  estimated_refund_amount : Option ℚ := none
  return_instructions : Option String := none
  condition : Option String := none
  tracking_number : Option String := none
  carrier : Option String := none
  location : Option String := none
  last_update : Option String := none
  expected_delivery : Option String := none
  history : List TrackEvent := []
deriving DecidableEq, Repr

/-- Rendering of an amount in a user-facing message; abstracts Python's
`f"{amount:.2f}"` (no claim depends on the rendered text). -/
def fmtAmount (a : ℚ) : String := reprStr a

/-- `functions.check_tracking`: a fixed mocked payload, independent of the
Ledger. Its dict has no `success` key, so `success` is `none` here. -/
def check_tracking (tracking_number : String) : FnResult :=
  { tracking_number := some tracking_number
    carrier := some "FedEx"
    status := some "In Transit"
    location := some "Portland, OR"
    last_update := some "2025-10-03 14:30"
    expected_delivery := some "2025-10-05"
    history := [
      { date := "2025-10-01 09:00", location := "Seattle, WA", event := "Package picked up" },
      { date := "2025-10-02 15:30", location := "Seattle, WA", event := "Departed facility" },
      { date := "2025-10-03 08:15", location := "Portland, OR", event := "Arrived at facility" },
      { date := "2025-10-03 14:30", location := "Portland, OR", event := "In transit to destination" }] }

/-- `functions.initiate_return`. `today` stands for the `%Y-%m-%d`
rendering of `datetime.now()` and `todayCompact` for the `%Y%m%d`
rendering used in the shipping label. -/
def initiate_return (db : Db) (order_id reason today todayCompact : String) :
    FnResult × Db :=
  match alist_get order_id db.orders with
  | none => ({ success := some false, error := some ("Order " ++ order_id ++ " not found") }, db)
  | some o =>
      if ¬(o.status = "shipped" ∨ o.status = "delivered") then
        ({ success := some false,
           error := some ("Cannot initiate return for order with status: " ++ o.status ++
             ". Order must be shipped or delivered.") }, db)
      else
        let rdb := db.create_return order_id reason today
        let db2 := rdb.2.update_order_status order_id "return_requested"
        let return_label := "RETURN-LABEL-" ++ order_id ++ "-" ++ todayCompact
        ({ success := some true
           return_id := some rdb.1
           order_id := some order_id
           status := some "pending_receipt"
           message := some "Return initiated successfully. Please ship the item back using the provided label."
           return_shipping_label := some return_label
           return_address := some "ShopCo Returns, 123 Warehouse St, Seattle, WA 98101"
           instructions := some "Pack item securely, attach label, drop off at any FedEx location. Refund will be processed within 3-5 business days after we receive and inspect the item."
           estimated_refund_amount := some o.total }, db2)

/-- `functions.initiate_refund`: the central decision function. -/
def initiate_refund (db : Db) (order_id : String) (amount : ℚ)
    (reason today todayCompact : String) : FnResult × Db :=
  match alist_get order_id db.orders with
  | none => ({ success := some false, error := some ("Order " ++ order_id ++ " not found") }, db)
  | some o =>
      if 500 < amount then
        ({ success := some false
           error := some "Refunds over $500 require supervisor approval"
           action_required := some "escalate_to_supervisor"
           order_id := some order_id
           amount := some amount }, db)
      else if o.status = "processing" then
        let db1 := db.update_order_status order_id "cancelled"
        let rdb := db1.create_refund order_id amount reason none today
        let db3 := rdb.2.update_refund_status rdb.1 "processing" none
        ({ success := some true
           refund_id := some rdb.1
           order_id := some order_id
           amount := some amount
           status := some "processing"
           message := some ("Order cancelled and refund of $" ++ fmtAmount amount ++
             " is processing. Funds will appear in 3-5 business days.")
           estimated_days := some 3 }, db3)
      else if o.status = "shipped" ∨ o.status = "delivered" then
        let rr := initiate_return db order_id reason today todayCompact
        if rr.1.success ≠ some true then rr
        else
          let rdb := rr.2.create_refund order_id amount reason rr.1.return_id today
          ({ success := some true
             refund_id := some rdb.1
             return_id := rr.1.return_id
             order_id := some order_id
             amount := some amount
             status := some "pending_return"
             message := some ("Return initiated. Once we receive and approve the return, we\u0027ll process your $" ++
               fmtAmount amount ++ " refund.")
             return_instructions := rr.1.instructions
             return_shipping_label := rr.1.return_shipping_label }, rdb.2)
      else if o.status = "return_requested" ∨ o.status = "refund_processing" then
        ({ success := some false
           error := some ("Refund already in progress for this order. Current status: " ++ o.status) }, db)
      else
        ({ success := some false
           error := some ("Cannot process refund for order with status: " ++ o.status) }, db)

/-- `functions.process_return_receipt`: the admin/system receiving and
inspection operation. -/
def process_return_receipt (db : Db) (return_id condition today : String) :
    FnResult × Db :=
  match alist_get return_id db.returns with
  | none => ({ success := some false, error := some ("Return " ++ return_id ++ " not found") }, db)
  | some ret =>
      if ¬(ret.status = "pending_receipt") then
        ({ success := some false
           error := some ("Return " ++ return_id ++ " is not pending receipt. Current status: " ++
             ret.status) }, db)
      else
        let db1 := db.update_return_status return_id "received" (some today) (some condition) none
        if condition = "good" ∨ condition = "damaged" then
          let db2 := db1.update_return_status return_id "approved" none none none
          let order_id := ret.order_id
          let db3 := db2.update_order_status order_id "refund_processing"
          let refund_id := "REF-" ++ order_id
          match alist_get refund_id db3.refunds with
          | some _ =>
              let db4 := db3.update_refund_status refund_id "completed" (some today)
              let db5 := db4.update_return_status return_id "approved" none none (some refund_id)
              ({ success := some true
                 message := some ("Return " ++ return_id ++ " received and approved. Refund processed.")
                 return_id := some return_id
                 condition := some condition
                 status := some "approved"
                 refund_id := some refund_id }, db5)
          | none =>
              ({ success := some true
                 message := some ("Return " ++ return_id ++ " received and approved. Refund processed.")
                 return_id := some return_id
                 condition := some condition
                 status := some "approved"
                 refund_id := none }, db3)
        else
          let db2 := db1.update_return_status return_id "rejected" none none none
          let db3 := db2.update_order_status ret.order_id "return_rejected"
          ({ success := some false
             message := some ("Return " ++ return_id ++ " rejected due to condition: " ++ condition)
             return_id := some return_id
             condition := some condition
             status := some "rejected" }, db3)

/-- `state.AgentState`: the Attempt Tracker plus the current-context
fields. -/
structure AgentState where
  attempts_by_problem : List (String × ℕ)
  current_order_id : Option String
  current_problem_category : Option String
deriving DecidableEq, Repr

/-- The freshly constructed `AgentState()`. -/
def AgentState.init : AgentState :=
  { attempts_by_problem := []
    current_order_id := none
    current_problem_category := none }

/-- The `f"{problem_category}:{order_id}"` key. -/
def problem_key (problem_category order_id : String) : String :=
  problem_category ++ ":" ++ order_id

/-- `AgentState.record_attempt`. -/
def AgentState.record_attempt (s : AgentState) (problem_category order_id : String) :
    AgentState :=
  let k := problem_key problem_category order_id
  { s with
    attempts_by_problem :=
      alist_set k ((alist_get k s.attempts_by_problem).getD 0 + 1) s.attempts_by_problem
    current_problem_category := some problem_category
    current_order_id := some order_id }

/-- `AgentState.get_attempts`. -/
def AgentState.get_attempts (s : AgentState) (problem_category order_id : String) : ℕ :=
  (alist_get (problem_key problem_category order_id) s.attempts_by_problem).getD 0

/-- `AgentState.is_stuck`: three or more attempts. -/
def AgentState.is_stuck (s : AgentState) (problem_category order_id : String) : Bool :=
  decide (3 ≤ s.get_attempts problem_category order_id)

/-- `AgentState.reset_problem`: deletes the key when present. -/
def AgentState.reset_problem (s : AgentState) (problem_category order_id : String) :
    AgentState :=
  let k := problem_key problem_category order_id
  { s with
    attempts_by_problem :=
      if (alist_get k s.attempts_by_problem).isSome then
        alist_erase k s.attempts_by_problem
      else s.attempts_by_problem }

/-- `CustomerSupportAgent._determine_problem_category`. -/
def determine_problem_category (function_name : String) : String :=
  if function_name = "initiate_refund" ∨ function_name = "check_return_status" then
    "refund_issue"
  else if function_name = "check_tracking" then "tracking_issue"
  else if function_name = "check_order_status" then "order_inquiry"
  else "general"

/-- `CustomerSupportAgent._extract_order_id`: prefers an explicit
`order_id` argument, else strips the `RET-` literal from a `return_id`
argument, else yields `unknown`. The two `Option` parameters model key
presence in the parsed argument dict. -/
def extract_order_id (args_order_id args_return_id : Option String) : String :=
  match args_order_id with
  | some v => v
  | none =>
      match args_return_id with
      | some r => r.replace "RET-" ""
      | none => "unknown"

/-- The baseline sampling parameters of `CustomerSupportAgent.chat`
(`temperature = 0.7`, `top_p = 0.9`, agent.py lines 83-84). -/
def baseline_sampling : ℚ × ℚ := (Rat.divInt 7 10, Rat.divInt 9 10)

/-- The sampling parameters used for the final model call of a turn
(agent.py lines 162-166): when the key is flagged stuck the code sets
`temperature = 1.0` and `top_p = 0.85`, else the baseline values stand. -/
def chat_sampling (stuck : Bool) : ℚ × ℚ :=
  if stuck then ((1 : ℚ), Rat.divInt 85 100) else baseline_sampling

/-- The success-conditional tracker reset of `CustomerSupportAgent.chat`
(lines 137-140): `if function_response.get("success", True):
state.reset_problem(...)`. `response_success = none` models a result dict
with no `success` key. -/
def chat_success_reset (st : AgentState) (problem_category order_id : String)
    (response_success : Option Bool) : AgentState :=
  if response_success.getD true then st.reset_problem problem_category order_id
  else st

/-- The Attempt-Tracker effect of one function-calling turn of
`CustomerSupportAgent.chat` in which the operation is invoked without
raising (lines 114-140): category and key derivation, `record_attempt`,
then the success-conditional reset. -/
def chat_function_turn (st : AgentState) (function_name : String)
    (args_order_id args_return_id : Option String)
    (response_success : Option Bool) : AgentState :=
  let problem_category := determine_problem_category function_name
  let order_id := extract_order_id args_order_id args_return_id
  let st1 := st.record_attempt problem_category order_id
  chat_success_reset st1 problem_category order_id response_success

/-- Sample order `12345` of `InMemoryDatabase._initialize_sample_data`
(status `shipped`). -/
def order_12345 : Order :=
  { order_id := "12345", status := "shipped",
    items := ["Blue Widget", "Red Gadget"],
    order_date := "2025-09-25", shipped_date := some "2025-09-26",
    expected_delivery := "2025-10-05",
    tracking_number := some "1Z999AA10123456784",
    total := Rat.divInt 8999 100, customer_id := "CUST001", delivered_date := none }

/-- Sample order `67890` of `InMemoryDatabase._initialize_sample_data`
(status `processing`). -/
def order_67890 : Order :=
  { order_id := "67890", status := "processing",
    items := ["Green Doohickey"],
    order_date := "2025-10-01", shipped_date := none,
    expected_delivery := "2025-10-08", tracking_number := none,
    total := Rat.divInt 4550 100, customer_id := "CUST002", delivered_date := none }

/-- The ten sample orders of `InMemoryDatabase._initialize_sample_data`,
in insertion order. -/
def sample_orders : List (String × Order) :=
  [("12345", order_12345), ("67890", order_67890),
   ("11111",
    { order_id := "11111", status := "delivered",
      items := ["Purple Thingamajig"],
      order_date := "2025-09-20", shipped_date := some "2025-09-21",
      expected_delivery := "2025-09-25",
      tracking_number := some "1Z999AA10987654321",
      total := Rat.divInt 12999 100, customer_id := "CUST003",
      delivered_date := some "2025-09-24" }),
   ("22222",
    { order_id := "22222", status := "shipped",
      items := ["Yellow Contraption", "Orange Widget"],
      order_date := "2025-09-28", shipped_date := some "2025-09-29",
      expected_delivery := "2025-10-06",
      tracking_number := some "1Z999AA11122233344",
      total := Rat.divInt 19999 100, customer_id := "CUST004", delivered_date := none }),
   ("33333",
    { order_id := "33333", status := "processing",
      items := ["Silver Gadget"],
      order_date := "2025-10-02", shipped_date := none,
      expected_delivery := "2025-10-09", tracking_number := none,
      total := Rat.divInt 7500 100, customer_id := "CUST005", delivered_date := none }),
   ("44444",
    { order_id := "44444", status := "delivered",
      items := ["Gold Device", "Platinum Tool"],
      order_date := "2025-09-15", shipped_date := some "2025-09-16",
      expected_delivery := "2025-09-20",
      tracking_number := some "1Z999AA55566677788",
      total := Rat.divInt 29999 100, customer_id := "CUST006",
      delivered_date := some "2025-09-19" }),
   ("55555",
    { order_id := "55555", status := "shipped",
      items := ["Black Instrument"],
      order_date := "2025-09-30", shipped_date := some "2025-10-01",
      expected_delivery := "2025-10-07",
      tracking_number := some "1Z999AA99900011122",
      total := Rat.divInt 14999 100, customer_id := "CUST007", delivered_date := none }),
   ("66666",
    { order_id := "66666", status := "processing",
      items := ["White Apparatus", "Gray Component"],
      order_date := "2025-10-03", shipped_date := none,
      expected_delivery := "2025-10-10", tracking_number := none,
      total := Rat.divInt 22550 100, customer_id := "CUST008", delivered_date := none }),
   ("77777",
    { order_id := "77777", status := "delivered",
      items := ["Brown Mechanism"],
      order_date := "2025-09-10", shipped_date := some "2025-09-11",
      expected_delivery := "2025-09-15",
      tracking_number := some "1Z999AA33344455566",
      total := Rat.divInt 8999 100, customer_id := "CUST009",
      delivered_date := some "2025-09-14" }),
   ("88888",
    { order_id := "88888", status := "shipped",
      items := ["Pink Accessory", "Teal Fixture", "Cyan Part"],
      order_date := "2025-09-27", shipped_date := some "2025-09-28",
      expected_delivery := "2025-10-05",
      tracking_number := some "1Z999AA77788899900",
      total := Rat.divInt 34999 100, customer_id := "CUST010", delivered_date := none })]

/-- The freshly initialized (or `reset`) database: ten sample orders, no
returns, no refunds. -/
def sample_db : Db :=
  { orders := sample_orders, returns := [], refunds := [] }

theorem alist_get_set_self (k : String) (v : α) (l : List (String × α)) :
    alist_get k (alist_set k v l) = some v := by
  induction l with
  | nil => simp [alist_get, alist_set]
  | cons hd tl ih =>
      obtain ⟨k0, v0⟩ := hd
      by_cases h : k0 = k
      · simp [alist_set, alist_get, h]
      · simp [alist_set, alist_get, h, ih]

theorem alist_get_set_ne (k k' : String) (v : α) (l : List (String × α))
    (h : k' ≠ k) : alist_get k' (alist_set k v l) = alist_get k' l := by
  induction l with
  | nil => simp [alist_get, alist_set, Ne.symm h]
  | cons hd tl ih =>
      obtain ⟨k0, v0⟩ := hd
      by_cases hk : k0 = k
      · subst hk
        simp [alist_set, alist_get, Ne.symm h, h]
      · by_cases hk' : k0 = k'
        · simp [alist_set, alist_get, hk, hk', h]
        · simp [alist_set, alist_get, hk, hk', ih]

theorem alist_get_update (k : String) (f : α → α) (l : List (String × α)) :
    alist_get k (alist_update k f l) = (alist_get k l).map f := by
  induction l with
  | nil => simp [alist_get, alist_update]
  | cons hd tl ih =>
      obtain ⟨k0, v0⟩ := hd
      by_cases h : k0 = k
      · simp [alist_update, alist_get, h]
      · simpa [alist_update, alist_get, h] using ih

theorem alist_get_update_ne (k k' : String) (f : α → α) (l : List (String × α))
    (h : k' ≠ k) : alist_get k' (alist_update k f l) = alist_get k' l := by
  induction l with
  | nil => simp [alist_get, alist_update]
  | cons hd tl ih =>
      obtain ⟨k0, v0⟩ := hd
      by_cases hk : k0 = k
      · subst hk
        simpa [alist_update, alist_get, Ne.symm h] using ih
      · by_cases hk' : k0 = k'
        · simp [alist_update, alist_get, hk, hk', h]
        · simpa [alist_update, alist_get, hk, hk'] using ih

theorem alist_get_erase_self (k : String) (l : List (String × α)) :
    alist_get k (alist_erase k l) = none := by
  induction l with
  | nil => simp [alist_get, alist_erase]
  | cons hd tl ih =>
      obtain ⟨k0, v0⟩ := hd
      by_cases h : k0 = k
      · simpa [alist_erase, alist_get, h] using ih
      · simpa [alist_erase, alist_get, h] using ih


/-- C1 counterexample: for the order identifier `99999`, which is absent
from the freshly seeded Ledger, `initiate_refund` with amount 600 (> 500)
returns a failure without the escalation marker (`action_required` is
absent from the result dict), so the claim's "failure-flagged result
requiring escalation for every order identifier" is false. -/
theorem C1_counterexample :
    alist_get "99999" sample_db.orders = none ∧
    (500 : ℚ) < 600 ∧
    (initiate_refund sample_db "99999" (600 : ℚ) "reason" "D" "DC").1.success = some false ∧
    (initiate_refund sample_db "99999" (600 : ℚ) "reason" "D" "DC").1.action_required = none := by
  refine ⟨by decide, by decide, by decide, by decide⟩

/-- C1 (amended): for every amount strictly greater than 500,
`initiate_refund` returns a failure-flagged result and leaves the Ledger
completely unchanged; when the order identifier is present in the Ledger
(whatever its status), the failure additionally carries the
`escalate_to_supervisor` marker. -/
theorem C1_refund_over_500 (db : Db) (order_id : String) (amount : ℚ)
    (reason today todayCompact : String) (h : 500 < amount) :
    (initiate_refund db order_id amount reason today todayCompact).2 = db ∧
    (initiate_refund db order_id amount reason today todayCompact).1.success = some false ∧
    (∀ o, alist_get order_id db.orders = some o →
      (initiate_refund db order_id amount reason today todayCompact).1.action_required =
        some "escalate_to_supervisor") := by
  cases hget : alist_get order_id db.orders with
  | none => simp [initiate_refund, hget]
  | some o => simp [initiate_refund, hget, h]

/-- C1 witness: the amended theorem applied to the seeded Ledger, order
`12345` and amount 600. -/
theorem C1_witness :
    (500 : ℚ) < 600 ∧
    ((initiate_refund sample_db "12345" (600 : ℚ) "r" "D" "DC").2 = sample_db ∧
     (initiate_refund sample_db "12345" (600 : ℚ) "r" "D" "DC").1.success = some false ∧
     (∀ o, alist_get "12345" sample_db.orders = some o →
       (initiate_refund sample_db "12345" (600 : ℚ) "r" "D" "DC").1.action_required =
         some "escalate_to_supervisor")) :=
  ⟨by decide, C1_refund_over_500 sample_db "12345" (600 : ℚ) "r" "D" "DC" (by decide)⟩

/-- C7: for any Attempt Tracker state in which a (category, order) key is
absent, three consecutive `record_attempt` calls on that key make
`is_stuck` true, and a subsequent `reset_problem` returns the key to
absent with `get_attempts` equal to 0. -/
theorem C7_tracker_cycle (st : AgentState) (problem_category order_id : String)
    (h : alist_get (problem_key problem_category order_id) st.attempts_by_problem = none) :
    (((st.record_attempt problem_category order_id).record_attempt problem_category
        order_id).record_attempt problem_category order_id).is_stuck problem_category
        order_id = true ∧
    alist_get (problem_key problem_category order_id)
      ((((st.record_attempt problem_category order_id).record_attempt problem_category
          order_id).record_attempt problem_category order_id).reset_problem
          problem_category order_id).attempts_by_problem = none ∧
    ((((st.record_attempt problem_category order_id).record_attempt problem_category
        order_id).record_attempt problem_category order_id).reset_problem problem_category
        order_id).get_attempts problem_category order_id = 0 := by
  refine ⟨?_, ?_, ?_⟩ <;>
    simp [AgentState.record_attempt, AgentState.is_stuck, AgentState.get_attempts,
      AgentState.reset_problem, alist_get_set_self, alist_get_erase_self, h]

/-- C7 witness: the cycle run from the fresh agent state on the
`refund_issue` category and order `12345`. -/
theorem C7_witness :
    alist_get (problem_key "refund_issue" "12345") AgentState.init.attempts_by_problem = none ∧
    ((((AgentState.init.record_attempt "refund_issue" "12345").record_attempt "refund_issue"
        "12345").record_attempt "refund_issue" "12345").is_stuck "refund_issue"
        "12345" = true ∧
     alist_get (problem_key "refund_issue" "12345")
       ((((AgentState.init.record_attempt "refund_issue" "12345").record_attempt
           "refund_issue" "12345").record_attempt "refund_issue" "12345").reset_problem
           "refund_issue" "12345").attempts_by_problem = none ∧
     ((((AgentState.init.record_attempt "refund_issue" "12345").record_attempt
         "refund_issue" "12345").record_attempt "refund_issue" "12345").reset_problem
         "refund_issue" "12345").get_attempts "refund_issue" "12345" = 0) :=
  ⟨by decide, C7_tracker_cycle AgentState.init "refund_issue" "12345" (by decide)⟩

/-- C8 counterexample: when the key is flagged stuck, the top-p value used
for the final model call (0.85) is strictly below the baseline value
(0.9), so the claim that both sampling parameters are raised above their
baselines is false. -/
theorem C8_counterexample :
    (chat_sampling true).2 < baseline_sampling.2 := by
  decide

/-- C8 (amended): when the key is flagged stuck after the function
invocation, the temperature used for the final model call is raised above
its baseline while the top-p value is lowered below its baseline;
otherwise both baseline values are kept. -/
theorem C8_sampling_adjustment :
    baseline_sampling.1 < (chat_sampling true).1 ∧
    (chat_sampling true).2 < baseline_sampling.2 ∧
    chat_sampling false = baseline_sampling := by
  refine ⟨by decide, by decide, rfl⟩

/-- C9 counterexample: in a turn invoking `check_tracking` (whose result
dict carries no `success` key at all), the controller still clears the
Attempt Tracker entry for the computed key, so clearing is not equivalent
to the result carrying a success flag equal to true. -/
theorem C9_counterexample :
    (check_tracking "1Z999AA10123456784").success ≠ some true ∧
    (AgentState.init.record_attempt "tracking_issue" "unknown").get_attempts
      "tracking_issue" "unknown" = 1 ∧
    (chat_function_turn AgentState.init "check_tracking" none none
      (check_tracking "1Z999AA10123456784").success).get_attempts
      "tracking_issue" "unknown" = 0 := by
  refine ⟨by decide, by decide, by decide⟩

/-- C9 (amended): during a turn in which the operation is invoked without
raising, the controller clears the Attempt Tracker entry for the computed
key if and only if the result's success flag is not present-and-false:
`get("success", True)` defaults a missing flag to true. -/
theorem C9_reset_condition (st : AgentState) (problem_category order_id : String)
    (response_success : Option Bool) :
    chat_success_reset st problem_category order_id response_success =
      if response_success = some false then st
      else st.reset_problem problem_category order_id := by
  cases response_success with
  | none => simp [chat_success_reset]
  | some b => cases b <;> simp [chat_success_reset]

/-- C3: for every existing order with status `processing`,
`initiate_refund` with amount at most 500 succeeds, transitions the order
to `cancelled`, and creates a `REF-<order>` Refund with status
`processing` (also reported in the result). -/
theorem C3_processing_refund (db : Db) (order_id : String) (amount : ℚ)
    (reason today todayCompact : String) (o : Order)
    (hget : alist_get order_id db.orders = some o)
    (hst : o.status = "processing")
    (hle : amount ≤ 500) :
    (initiate_refund db order_id amount reason today todayCompact).1.success = some true ∧
    (initiate_refund db order_id amount reason today todayCompact).1.status =
      some "processing" ∧
    (∃ o', alist_get order_id
        (initiate_refund db order_id amount reason today todayCompact).2.orders = some o' ∧
      o'.status = "cancelled") ∧
    (∃ rf, alist_get ("REF-" ++ order_id)
        (initiate_refund db order_id amount reason today todayCompact).2.refunds = some rf ∧
      rf.status = "processing") := by
  have hnot : ¬ (500 < amount) := not_lt.mpr hle
  refine ⟨?_, ?_, ?_, ?_⟩ <;>
    simp [initiate_refund, hget, hst, hnot, Db.update_order_status, Db.create_refund,
      Db.update_refund_status, alist_get_update, alist_get_set_self]

/-- C3 witness: order `67890` (status `processing`, total 45.50) in the
seeded Ledger, refunded at its total. -/
theorem C3_witness :
    alist_get "67890" sample_db.orders =
      some order_67890 ∧
    ((initiate_refund sample_db "67890" (Rat.divInt 4550 100) "changed mind" "D"
        "DC").1.success = some true ∧
     (initiate_refund sample_db "67890" (Rat.divInt 4550 100) "changed mind" "D"
        "DC").1.status = some "processing" ∧
     (∃ o', alist_get "67890"
         (initiate_refund sample_db "67890" (Rat.divInt 4550 100) "changed mind" "D"
           "DC").2.orders = some o' ∧ o'.status = "cancelled") ∧
     (∃ rf, alist_get ("REF-" ++ "67890")
         (initiate_refund sample_db "67890" (Rat.divInt 4550 100) "changed mind" "D"
           "DC").2.refunds = some rf ∧ rf.status = "processing")) :=
  ⟨by decide,
   C3_processing_refund sample_db "67890" (Rat.divInt 4550 100) "changed mind" "D" "DC"
     order_67890 (by decide) (by decide) (by decide)⟩

/-- C2: for every existing order with status `shipped` or `delivered`,
`initiate_refund` with amount at most 500 succeeds with reported status
`pending_return`, creates the `RET-<order>` Return with status
`pending_receipt`, creates the `REF-<order>` Refund with status
`pending_return` linked to that Return, and transitions the order to
`return_requested`. -/
theorem C2_shipped_delivered_refund (db : Db) (order_id : String) (amount : ℚ)
    (reason today todayCompact : String) (o : Order)
    (hget : alist_get order_id db.orders = some o)
    (hst : o.status = "shipped" ∨ o.status = "delivered")
    (hle : amount ≤ 500) :
    (initiate_refund db order_id amount reason today todayCompact).1.success = some true ∧
    (initiate_refund db order_id amount reason today todayCompact).1.status =
      some "pending_return" ∧
    (∃ ret, alist_get ("RET-" ++ order_id)
        (initiate_refund db order_id amount reason today todayCompact).2.returns = some ret ∧
      ret.status = "pending_receipt") ∧
    (∃ rf, alist_get ("REF-" ++ order_id)
        (initiate_refund db order_id amount reason today todayCompact).2.refunds = some rf ∧
      rf.status = "pending_return" ∧ rf.return_id = some ("RET-" ++ order_id)) ∧
    (∃ o', alist_get order_id
        (initiate_refund db order_id amount reason today todayCompact).2.orders = some o' ∧
      o'.status = "return_requested") := by
  have hnot : ¬ (500 < amount) := not_lt.mpr hle
  rcases hst with hs | hs <;>
    refine ⟨?_, ?_, ?_, ?_, ?_⟩ <;>
      simp [initiate_refund, initiate_return, hget, hs, hnot, Db.create_return,
        Db.update_order_status, Db.create_refund, alist_get_update, alist_get_set_self]

/-- C2 witness: order `12345` (status `shipped`, total 89.99) in the
seeded Ledger, refunded at its total. -/
theorem C2_witness :
    alist_get "12345" sample_db.orders =
      some order_12345 ∧
    ((initiate_refund sample_db "12345" (Rat.divInt 8999 100) "damaged" "D"
        "DC").1.success = some true ∧
     (initiate_refund sample_db "12345" (Rat.divInt 8999 100) "damaged" "D"
        "DC").1.status = some "pending_return" ∧
     (∃ ret, alist_get ("RET-" ++ "12345")
         (initiate_refund sample_db "12345" (Rat.divInt 8999 100) "damaged" "D"
           "DC").2.returns = some ret ∧ ret.status = "pending_receipt") ∧
     (∃ rf, alist_get ("REF-" ++ "12345")
         (initiate_refund sample_db "12345" (Rat.divInt 8999 100) "damaged" "D"
           "DC").2.refunds = some rf ∧
       rf.status = "pending_return" ∧ rf.return_id = some ("RET-" ++ "12345")) ∧
     (∃ o', alist_get "12345"
         (initiate_refund sample_db "12345" (Rat.divInt 8999 100) "damaged" "D"
           "DC").2.orders = some o' ∧ o'.status = "return_requested")) :=
  ⟨by decide,
   C2_shipped_delivered_refund sample_db "12345" (Rat.divInt 8999 100) "damaged" "D" "DC"
     order_12345 (by decide) (Or.inl (by decide)) (by decide)⟩

/-- C10: `initiate_refund` enforces no lower bound on the amount: for
every existing order with status `processing`, `shipped` or `delivered`,
any amount at most 500 (including zero and negative values) is accepted
and the created `REF-<order>` Refund carries exactly that amount. -/
theorem C10_no_lower_bound (db : Db) (order_id : String) (amount : ℚ)
    (reason today todayCompact : String) (o : Order)
    (hget : alist_get order_id db.orders = some o)
    (hst : o.status = "processing" ∨ o.status = "shipped" ∨ o.status = "delivered")
    (hle : amount ≤ 500) :
    (initiate_refund db order_id amount reason today todayCompact).1.success = some true ∧
    (∃ rf, alist_get ("REF-" ++ order_id)
        (initiate_refund db order_id amount reason today todayCompact).2.refunds = some rf ∧
      rf.amount = amount) := by
  have hnot : ¬ (500 < amount) := not_lt.mpr hle
  rcases hst with hs | hs | hs <;>
    refine ⟨?_, ?_⟩ <;>
      simp [initiate_refund, initiate_return, hget, hs, hnot, Db.create_return,
        Db.update_order_status, Db.create_refund, Db.update_refund_status,
        alist_get_update, alist_get_set_self]

/-- C10 witness: a negative amount (-5) on the `processing` order `67890`
is accepted and recorded verbatim in the Refund. -/
theorem C10_witness :
    alist_get "67890" sample_db.orders =
      some order_67890 ∧
    (-5 : ℚ) ≤ 500 ∧
    ((initiate_refund sample_db "67890" (-5 : ℚ) "r" "D" "DC").1.success = some true ∧
     (∃ rf, alist_get ("REF-" ++ "67890")
         (initiate_refund sample_db "67890" (-5 : ℚ) "r" "D" "DC").2.refunds = some rf ∧
       rf.amount = (-5 : ℚ))) :=
  ⟨by decide, by decide,
   C10_no_lower_bound sample_db "67890" (-5 : ℚ) "r" "D" "DC" order_67890 (by decide)
     (Or.inl (by decide)) (by decide)⟩

/-- C4 counterexample: in the spec's scenario the first `initiate_refund`
on order `67890` succeeds and cancels the order, and the second call does
fail — but with the generic "Cannot process refund for order with status:
cancelled" error, not with the "already in progress" error (which for
this order would read "Refund already in progress for this order. Current
status: cancelled"): a `cancelled` order falls into the final `else`
branch, not the `return_requested`/`refund_processing` branch. -/
theorem C4_counterexample :
    (initiate_refund sample_db "67890" (Rat.divInt 4550 100) "changed mind" "D"
      "DC").1.success = some true ∧
    (initiate_refund (initiate_refund sample_db "67890" (Rat.divInt 4550 100)
        "changed mind" "D" "DC").2 "67890" (Rat.divInt 4550 100) "changed mind" "D"
        "DC").1.error = some "Cannot process refund for order with status: cancelled" ∧
    (initiate_refund (initiate_refund sample_db "67890" (Rat.divInt 4550 100)
        "changed mind" "D" "DC").2 "67890" (Rat.divInt 4550 100) "changed mind" "D"
        "DC").1.error ≠
      some "Refund already in progress for this order. Current status: cancelled" := by
  refine ⟨by decide, by decide, by decide⟩

/-- C4 (amended): after a successful `initiate_refund` on order `67890`
(status `processing`, now `cancelled`), a second `initiate_refund` call on
the same order fails — with the generic "Cannot process refund for order
with status: cancelled" error rather than the "already in progress"
error. -/
theorem C4_second_refund_fails :
    (initiate_refund sample_db "67890" (Rat.divInt 4550 100) "changed mind" "D"
      "DC").1.success = some true ∧
    (initiate_refund sample_db "67890" (Rat.divInt 4550 100) "changed mind" "D"
      "DC").1.status = some "processing" ∧
    ((alist_get "67890" (initiate_refund sample_db "67890" (Rat.divInt 4550 100)
        "changed mind" "D" "DC").2.orders).map Order.status = some "cancelled") ∧
    (initiate_refund (initiate_refund sample_db "67890" (Rat.divInt 4550 100)
        "changed mind" "D" "DC").2 "67890" (Rat.divInt 4550 100) "changed mind" "D"
        "DC").1.success = some false ∧
    (initiate_refund (initiate_refund sample_db "67890" (Rat.divInt 4550 100)
        "changed mind" "D" "DC").2 "67890" (Rat.divInt 4550 100) "changed mind" "D"
        "DC").1.error = some "Cannot process refund for order with status: cancelled" := by
  refine ⟨by decide, by decide, by decide, by decide, by decide⟩

/-- After any `process_return_receipt` call, the targeted Return (if it is
present at all) is never left in status `pending_receipt`: every branch
that touches the record moves it to `received`, `approved` or
`rejected`. -/
theorem receipt_not_pending_after (db : Db) (return_id condition today : String) :
    ∀ r', alist_get return_id
        (process_return_receipt db return_id condition today).2.returns = some r' →
      r'.status ≠ "pending_receipt" := by
  intro r' hr'
  cases hget : alist_get return_id db.returns with
  | none => simp [process_return_receipt, hget] at hr'
  | some ret =>
      by_cases hp : ret.status = "pending_receipt"
      · by_cases hc : condition = "good" ∨ condition = "damaged"
        · cases hrf : alist_get ("REF-" ++ ret.order_id) db.refunds with
          | some rf =>
              simp [process_return_receipt, hget, hp, hc, hrf, Db.update_return_status,
                Db.update_order_status, Db.update_refund_status, alist_get_update] at hr'
              simp [← hr']
          | none =>
              simp [process_return_receipt, hget, hp, hc, hrf, Db.update_return_status,
                Db.update_order_status, alist_get_update] at hr'
              simp [← hr']
        · simp [process_return_receipt, hget, hp, hc, Db.update_return_status,
            Db.update_order_status, alist_get_update] at hr'
          simp [← hr']
      · simp [process_return_receipt, hget, hp] at hr'
        subst hr'
        exact hp

/-- `process_return_receipt` fails whenever the targeted Return is absent
or not in status `pending_receipt`. -/
theorem receipt_fails_when_not_pending (db : Db) (return_id condition today : String)
    (h : ∀ ret, alist_get return_id db.returns = some ret →
      ret.status ≠ "pending_receipt") :
    (process_return_receipt db return_id condition today).1.success = some false := by
  cases hget : alist_get return_id db.returns with
  | none => simp [process_return_receipt, hget]
  | some ret => simp [process_return_receipt, hget, h ret hget]

/-- C5: `process_return_receipt` returns a success-flagged result only
when the targeted Return exists with status `pending_receipt`, and for
every return identifier and every pair of condition values, the second of
two consecutive calls on the same return fails. -/
theorem C5_receipt_once (db : Db) (return_id condition today condition2 today2 : String) :
    ((process_return_receipt db return_id condition today).1.success = some true →
      ∃ ret, alist_get return_id db.returns = some ret ∧
        ret.status = "pending_receipt") ∧
    (process_return_receipt (process_return_receipt db return_id condition today).2
      return_id condition2 today2).1.success = some false := by
  constructor
  · intro h
    cases hget : alist_get return_id db.returns with
    | none => simp [process_return_receipt, hget] at h
    | some ret =>
        refine ⟨ret, rfl, ?_⟩
        by_cases hp : ret.status = "pending_receipt"
        · exact hp
        · simp [process_return_receipt, hget, hp] at h
  · exact receipt_fails_when_not_pending _ _ _ _
      (receipt_not_pending_after db return_id condition today)

/-- C5 witness: the theorem instantiated on the Ledger obtained by
refunding shipped order `12345` (which creates `RET-12345` in status
`pending_receipt`), receiving it in condition `good`, then trying to
receive it a second time. -/
theorem C5_witness :
    ((process_return_receipt
        (initiate_refund sample_db "12345" (Rat.divInt 8999 100) "damaged" "D" "DC").2
        "RET-12345" "good" "D2").1.success = some true →
      ∃ ret, alist_get "RET-12345"
          (initiate_refund sample_db "12345" (Rat.divInt 8999 100) "damaged" "D"
            "DC").2.returns = some ret ∧ ret.status = "pending_receipt") ∧
    (process_return_receipt
      (process_return_receipt
        (initiate_refund sample_db "12345" (Rat.divInt 8999 100) "damaged" "D" "DC").2
        "RET-12345" "good" "D2").2
      "RET-12345" "good" "D3").1.success = some false :=
  C5_receipt_once
    (initiate_refund sample_db "12345" (Rat.divInt 8999 100) "damaged" "D" "DC").2
    "RET-12345" "good" "D2" "good" "D3"

/-- C6: for every Return in status `pending_receipt` and condition `good`
or `damaged`, `process_return_receipt` succeeds, leaves the Return in
status `approved`, transitions the linked Order (when present) to
`refund_processing`, and, when a Refund under the derived `REF-<order>`
identifier exists, marks it `completed` with a completion date and
attaches the refund identifier to the Return. -/
theorem C6_receipt_good_damaged (db : Db) (return_id condition today : String)
    (ret : ReturnRec)
    (hget : alist_get return_id db.returns = some ret)
    (hp : ret.status = "pending_receipt")
    (hc : condition = "good" ∨ condition = "damaged") :
    (process_return_receipt db return_id condition today).1.success = some true ∧
    (∃ ret', alist_get return_id
        (process_return_receipt db return_id condition today).2.returns = some ret' ∧
      ret'.status = "approved") ∧
    (∀ o, alist_get ret.order_id db.orders = some o →
      ∃ o', alist_get ret.order_id
          (process_return_receipt db return_id condition today).2.orders = some o' ∧
        o'.status = "refund_processing") ∧
    (∀ rf, alist_get ("REF-" ++ ret.order_id) db.refunds = some rf →
      (∃ rf', alist_get ("REF-" ++ ret.order_id)
          (process_return_receipt db return_id condition today).2.refunds = some rf' ∧
        rf'.status = "completed" ∧ rf'.completed_date = some today) ∧
      (∃ ret', alist_get return_id
          (process_return_receipt db return_id condition today).2.returns = some ret' ∧
        ret'.refund_id = some ("REF-" ++ ret.order_id))) := by
  rcases hc with rfl | rfl <;>
    cases hrf : alist_get ("REF-" ++ ret.order_id) db.refunds <;>
      refine ⟨?_, ?_, ?_, ?_⟩ <;>
        (simp [process_return_receipt, hget, hp, hrf, Db.update_return_status,
          Db.update_order_status, Db.update_refund_status, alist_get_update,
          alist_get_set_self]) <;>
        (intro o ho
         exact ⟨o, ho⟩)

/-- C6 witness: receiving `RET-12345` in condition `good` on the Ledger
obtained by refunding shipped order `12345` (so both the Return and the
`REF-12345` Refund exist). -/
theorem C6_witness :
    ((process_return_receipt
        (initiate_refund sample_db "12345" (Rat.divInt 8999 100) "damaged" "D" "DC").2
        "RET-12345" "good" "D2").1.success = some true ∧
     (∃ ret', alist_get "RET-12345"
         (process_return_receipt
           (initiate_refund sample_db "12345" (Rat.divInt 8999 100) "damaged" "D" "DC").2
           "RET-12345" "good" "D2").2.returns = some ret' ∧
       ret'.status = "approved") ∧
     (∀ o, alist_get "12345"
         (initiate_refund sample_db "12345" (Rat.divInt 8999 100) "damaged" "D"
           "DC").2.orders = some o →
       ∃ o', alist_get "12345"
           (process_return_receipt
             (initiate_refund sample_db "12345" (Rat.divInt 8999 100) "damaged" "D"
               "DC").2 "RET-12345" "good" "D2").2.orders = some o' ∧
         o'.status = "refund_processing") ∧
     (∀ rf, alist_get ("REF-" ++ "12345")
         (initiate_refund sample_db "12345" (Rat.divInt 8999 100) "damaged" "D"
           "DC").2.refunds = some rf →
       (∃ rf', alist_get ("REF-" ++ "12345")
           (process_return_receipt
             (initiate_refund sample_db "12345" (Rat.divInt 8999 100) "damaged" "D"
               "DC").2 "RET-12345" "good" "D2").2.refunds = some rf' ∧
         rf'.status = "completed" ∧ rf'.completed_date = some "D2") ∧
       (∃ ret', alist_get "RET-12345"
           (process_return_receipt
             (initiate_refund sample_db "12345" (Rat.divInt 8999 100) "damaged" "D"
               "DC").2 "RET-12345" "good" "D2").2.returns = some ret' ∧
         ret'.refund_id = some ("REF-" ++ "12345"))))
    := by
  have h := C6_receipt_good_damaged
    (initiate_refund sample_db "12345" (Rat.divInt 8999 100) "damaged" "D" "DC").2
    "RET-12345" "good" "D2"
    ({ return_id := "RET-12345", order_id := "12345", status := "pending_receipt",
       reason := "damaged", initiated_date := "D", received_date := none,
       inspection_result := none, refund_id := none } : ReturnRec)
    (by decide) (by decide) (Or.inl (by decide))
  exact h

end CSA
